import Mathlib

/-!
Verification of the SpeakToMe backend's appointment lifecycle and access
control engine, shallowly embedded from the TypeScript source
(src/models/Appointment.ts, src/middleware auth/rate-limiter file, the
appointment and auth controllers, src/models/User.ts, src/config).

Conventions of the embedding:
- the appointments table is a list of rows; SQL UPDATE ... WHERE id = ?
  becomes a map over the list guarded by the id;
- CURRENT_TIMESTAMP is an explicit (now : Nat) argument;
- auto-increment insert ids are modelled by nextId (one more than the
  largest id present);
- req.body partial updates become structures of Option fields, where
  none means the key is absent from the body.
-/

namespace SpeakToMe

/-- One row of the status_types table.  The seed data gives the four
appointment statuses the ids hard-coded in the controller shim
(PENDING 1, ASSIGNED 2, COMPLETED 3, CANCELLED 4). -/
structure StatusTypeRow where
  id : Nat
  name : String
  category : String
deriving DecidableEq, Repr

def statusTypesSeed : List StatusTypeRow :=
  [⟨1, "PENDING", "appointment"⟩,
   ⟨2, "ASSIGNED", "appointment"⟩,
   ⟨3, "COMPLETED", "appointment"⟩,
   ⟨4, "CANCELLED", "appointment"⟩]

def pendingId : Nat := 1
def assignedId : Nat := 2
def completedId : Nat := 3
def cancelledId : Nat := 4

/-- SELECT id FROM status_types WHERE name = ? AND category = 'appointment' LIMIT 1 -/
def statusIdByName (name : String) : Option Nat :=
  (statusTypesSeed.find? fun r => r.name == name && r.category == "appointment").map (·.id)

/-- The subquery of checkAvailability:
SELECT id FROM status_types WHERE name IN ('CANCELLED') AND category = 'appointment' -/
def cancelledStatusIds : List Nat :=
  (statusTypesSeed.filter fun r => ["CANCELLED"].contains r.name && r.category == "appointment").map (·.id)

/-- One row of the appointments table (timestamps as Nat). -/
structure AppointmentRow where
  id : Nat
  student_id : Nat
  psychologist_id : Option Nat
  scheduled_date : String
  scheduled_time : String
  status_id : Nat
  reason_for_visit : Option String := none
  notes : Option String := none
  cancelled_at : Option Nat := none
  completed_at : Option Nat := none
deriving DecidableEq, Repr

abbrev AppointmentsDb := List AppointmentRow

/-- Auto-increment id for the next insert: strictly greater than every id
in the table. -/
def nextId (db : AppointmentsDb) : Nat :=
  (db.map (·.id)).foldr max 0 + 1

/-- UPDATE appointments SET ... WHERE id = ?, as a guarded map. -/
def updateWhere (db : AppointmentsDb) (id : Nat) (g : AppointmentRow → AppointmentRow) :
    AppointmentsDb :=
  db.map fun a => if a.id = id then g a else a

namespace AppointmentModel

/-- AppointmentModel.findById (the SELECT by primary key; the joined
display names are not part of the row). -/
def findById (db : AppointmentsDb) (id : Nat) : Option AppointmentRow :=
  db.find? fun a => a.id == id

/-- AppointmentModel.checkAvailability: counts rows for that
psychologist at exactly (date, time) whose status_id is not in the
CANCELLED set, and reports the slot free iff the count is zero. -/
def checkAvailability (db : AppointmentsDb) (psychologistId : Nat)
    (date time : String) : Bool :=
  (db.countP fun a =>
    a.psychologist_id == some psychologistId &&
    a.scheduled_date == date &&
    a.scheduled_time == time &&
    !(cancelledStatusIds.contains a.status_id)) == 0

/-- The insertable fields of AppointmentModel.create. -/
structure CreateData where
  student_id : Nat
  psychologist_id : Option Nat
  scheduled_date : String
  scheduled_time : String
  reason_for_visit : Option String := none
  notes : Option String := none
deriving DecidableEq, Repr

/-- The row the INSERT of AppointmentModel.create writes. -/
def createRowOf (db : AppointmentsDb) (d : CreateData) (statusId : Nat) :
    AppointmentRow :=
  { id := nextId db
    student_id := d.student_id
    psychologist_id := d.psychologist_id
    scheduled_date := d.scheduled_date
    scheduled_time := d.scheduled_time
    status_id := statusId
    reason_for_visit := d.reason_for_visit
    notes := d.notes }

/-- AppointmentModel.create: picks the status by name (ASSIGNED when a
psychologist is given, PENDING otherwise), inserts the row, and returns
findById of the fresh insert id.  none models the thrown errors (missing
status seed, or findById of the insert returning null). -/
def create (db : AppointmentsDb) (d : CreateData) :
    Option (AppointmentRow × AppointmentsDb) :=
  match statusIdByName (if d.psychologist_id.isSome then "ASSIGNED" else "PENDING") with
  | none => none
  | some statusId =>
    let row := createRowOf db d statusId
    match findById (db ++ [row]) (nextId db) with
    | none => none
    | some inserted => some (inserted, db ++ [row])

/-- A partial update of an appointment (the body of
AppointmentModel.update); none means the field is absent. -/
structure AppointmentPatch where
  student_id : Option Nat := none
  psychologist_id : Option (Option Nat) := none
  scheduled_date : Option String := none
  scheduled_time : Option String := none
  status_id : Option Nat := none
  reason_for_visit : Option (Option String) := none
  notes : Option (Option String) := none
deriving DecidableEq, Repr

def applyPatch (p : AppointmentPatch) (a : AppointmentRow) : AppointmentRow :=
  { a with
    student_id := p.student_id.getD a.student_id
    psychologist_id := p.psychologist_id.getD a.psychologist_id
    scheduled_date := p.scheduled_date.getD a.scheduled_date
    scheduled_time := p.scheduled_time.getD a.scheduled_time
    status_id := p.status_id.getD a.status_id
    reason_for_visit := p.reason_for_visit.getD a.reason_for_visit
    notes := p.notes.getD a.notes }

/-- AppointmentModel.update: raw SET of the supplied fields, no legality
check of any kind, then findById. -/
def update (db : AppointmentsDb) (id : Nat) (p : AppointmentPatch) :
    Option AppointmentRow × AppointmentsDb :=
  let db2 := updateWhere db id (applyPatch p)
  (findById db2 id, db2)

/-- CONCAT(IFNULL(notes, ''), IFNULL(CONCAT(label, ?), '')) -/
def appendNote (notes : Option String) (label : String) (extra : Option String) :
    Option String :=
  some ((notes.getD "") ++ (match extra with
    | some s => label ++ s
    | none => ""))

/-- The SET clause of AppointmentModel.cancel on one row. -/
def cancelSet (sid : Nat) (reason : Option String) (now : Nat)
    (a : AppointmentRow) : AppointmentRow :=
  { a with status_id := sid
           cancelled_at := some now
           notes := appendNote a.notes "\nRazón de cancelación: " reason }

/-- AppointmentModel.cancel: one unconditional UPDATE that sets the
CANCELLED status id, cancelled_at, and appends the cancellation reason
to the notes; there is no check of the current status. -/
def cancel (db : AppointmentsDb) (id : Nat) (reason : Option String) (now : Nat) :
    Option AppointmentRow × AppointmentsDb :=
  match statusIdByName "CANCELLED" with
  | none => (findById db id, db)
  | some sid =>
    let db2 := updateWhere db id (cancelSet sid reason now)
    (findById db2 id, db2)

/-- The SET clause of AppointmentModel.complete on one row. -/
def completeSet (sid : Nat) (notes : Option String) (now : Nat)
    (a : AppointmentRow) : AppointmentRow :=
  { a with status_id := sid
           completed_at := some now
           notes := appendNote a.notes "\nNotas de finalización: " notes }

/-- AppointmentModel.complete: one unconditional UPDATE that sets the
COMPLETED status id, completed_at, and appends the completion notes;
there is no check of the current status. -/
def complete (db : AppointmentsDb) (id : Nat) (notes : Option String) (now : Nat) :
    Option AppointmentRow × AppointmentsDb :=
  match statusIdByName "COMPLETED" with
  | none => (findById db id, db)
  | some sid =>
    let db2 := updateWhere db id (completeSet sid notes now)
    (findById db2 id, db2)

/-- The SET clause of AppointmentModel.assignPsychologist on one row. -/
def assignSet (sid : Nat) (psychologistId : Nat) (a : AppointmentRow) :
    AppointmentRow :=
  { a with psychologist_id := some psychologistId, status_id := sid }

/-- AppointmentModel.assignPsychologist: unconditionally sets the
psychologist and the ASSIGNED status id. -/
def assignPsychologist (db : AppointmentsDb) (id : Nat) (psychologistId : Nat) :
    Option AppointmentRow × AppointmentsDb :=
  match statusIdByName "ASSIGNED" with
  | none => (findById db id, db)
  | some sid =>
    let db2 := updateWhere db id (assignSet sid psychologistId)
    (findById db2 id, db2)

end AppointmentModel

/-- The outcome a controller sends: the HTTP status code and the success
flag of the JSON body. -/
structure ControllerResult where
  status : Nat
  success : Bool
deriving DecidableEq, Repr

namespace AppointmentController

open AppointmentModel

/-- The request body of POST /appointments (after validation). -/
structure CreateBody where
  student_id : Nat
  psychologist_id : Option Nat
  scheduled_date : String
  scheduled_time : String
  reason_for_visit : Option String := none
  notes : Option String := none
deriving DecidableEq, Repr

/-- The CreateData the controller hands to AppointmentModel.create: the
body fields, with student_id overridden by the caller's id when the
caller's role is 3 (STUDENT). -/
def requestData (uid roleId : Nat) (body : CreateBody) : CreateData :=
  { student_id := if roleId = 3 then uid else body.student_id
    psychologist_id := body.psychologist_id
    scheduled_date := body.scheduled_date
    scheduled_time := body.scheduled_time
    reason_for_visit := body.reason_for_visit
    notes := body.notes }

/-- AppointmentController.createAppointment: 401 without an identity;
with no psychologist the create proceeds directly (the controller writes
status_id 1, which AppointmentModel.create recomputes from the name
PENDING); with a psychologist the slot must pass checkAvailability or
the request ends 409 with nothing inserted; a student id in the token
overrides the body's student_id when the caller's role is 3 (STUDENT).
The 500 branch models the thrown-error path of AppointmentModel.create. -/
def createAppointment (userId : Option Nat) (roleId : Nat) (body : CreateBody)
    (db : AppointmentsDb) : ControllerResult × AppointmentsDb :=
  match userId with
  | none => (⟨401, false⟩, db)
  | some uid =>
    let data := requestData uid roleId body
    match body.psychologist_id with
    | none =>
      match create db data with
      | some (_, db2) => (⟨201, true⟩, db2)
      | none => (⟨500, false⟩, db)
    | some pid =>
      if checkAvailability db pid body.scheduled_date body.scheduled_time then
        match create db data with
        | some (_, db2) => (⟨201, true⟩, db2)
        | none => (⟨500, false⟩, db)
      else (⟨409, false⟩, db)

/-- The ASCII fragment of the JavaScript String.prototype.toUpperCase
builtin used by the status shim (status names are ASCII; other
characters pass through unchanged). -/
def asciiUpper (c : Char) : Char :=
  if 'a' ≤ c ∧ c ≤ 'z' then Char.ofNat (c.toNat - 32) else c

def toUpperCase (s : String) : String :=
  String.mk (s.data.map asciiUpper)

/-- The request body of PUT /appointments/:id — the patch fields plus
the compatibility field status, a symbolic status name. -/
structure UpdateBody where
  patch : AppointmentPatch
  status : Option String := none
deriving DecidableEq, Repr

/-- The controller's inline name-to-id map for the status shim. -/
def statusNameMap (s : String) : Option Nat :=
  if s == "PENDING" then some 1
  else if s == "ASSIGNED" then some 2
  else if s == "COMPLETED" then some 3
  else if s == "CANCELLED" then some 4
  else none

/-- The compatibility shim of updateAppointment: when the body carries a
status string and no status_id, map the upper-cased name through the
table and store it as status_id (the status key itself is dropped). -/
def applyStatusShim (b : UpdateBody) : AppointmentPatch :=
  match b.status with
  | none => b.patch
  | some s =>
    if b.patch.status_id.isSome then b.patch
    else
      match statusNameMap (toUpperCase s) with
      | some sid => { b.patch with status_id := some sid }
      | none => b.patch

/-- The truthiness guard of updateAppointment: the availability check
runs only when the body supplies a non-null, non-zero psychologist_id
and non-empty scheduled_date and scheduled_time. -/
def availabilityGuardArgs (p : AppointmentPatch) : Option (Nat × String × String) :=
  match p.psychologist_id, p.scheduled_date, p.scheduled_time with
  | some (some pid), some d, some t =>
    if pid ≠ 0 ∧ d ≠ "" ∧ t ≠ "" then some (pid, d, t) else none
  | _, _, _ => none

/-- AppointmentController.updateAppointment: runs the status shim, then
only when the body supplies a (truthy) psychologist_id, scheduled_date
and scheduled_time does it consult checkAvailability (409 on failure);
otherwise the patch is applied raw by AppointmentModel.update with no
transition-legality check; 404 when the appointment does not exist. -/
def updateAppointment (id : Nat) (b : UpdateBody) (db : AppointmentsDb) :
    ControllerResult × AppointmentsDb :=
  let p := applyStatusShim b
  let runUpdate : ControllerResult × AppointmentsDb :=
    match AppointmentModel.update db id p with
    | (none, db2) => (⟨404, false⟩, db2)
    | (some _, db2) => (⟨200, true⟩, db2)
  match availabilityGuardArgs p with
  | some (pid, d, t) =>
    if checkAvailability db pid d t then runUpdate else (⟨409, false⟩, db)
  | none => runUpdate

/-- AppointmentController.cancelAppointment: calls the unconditional
model cancel; 404 only when the row does not exist. -/
def cancelAppointment (id : Nat) (reason : Option String) (now : Nat)
    (db : AppointmentsDb) : ControllerResult × AppointmentsDb :=
  match AppointmentModel.cancel db id reason now with
  | (none, db2) => (⟨404, false⟩, db2)
  | (some _, db2) => (⟨200, true⟩, db2)

/-- AppointmentController.completeAppointment: calls the unconditional
model complete; 404 only when the row does not exist. -/
def completeAppointment (id : Nat) (notes : Option String) (now : Nat)
    (db : AppointmentsDb) : ControllerResult × AppointmentsDb :=
  match AppointmentModel.complete db id notes now with
  | (none, db2) => (⟨404, false⟩, db2)
  | (some _, db2) => (⟨200, true⟩, db2)

/-- AppointmentController.assignPsychologist: 404 when the appointment
is missing, 409 when the new psychologist's slot fails
checkAvailability at the appointment's own date and time, otherwise the
unconditional model assign. -/
def assignPsychologistCtrl (id : Nat) (psychologistId : Nat)
    (db : AppointmentsDb) : ControllerResult × AppointmentsDb :=
  match findById db id with
  | none => (⟨404, false⟩, db)
  | some appt =>
    if checkAvailability db psychologistId appt.scheduled_date appt.scheduled_time then
      match AppointmentModel.assignPsychologist db id psychologistId with
      | (_, db2) => (⟨200, true⟩, db2)
    else (⟨409, false⟩, db)

/-- AppointmentController.getMyAppointments: 401 without an identity;
role 2 (PSYCHOLOGIST) lists the caller's appointments as psychologist,
role 3 (STUDENT) as student, and every other role — role 1 TL_MAYOR
included — is refused with 403.  Ordering and pagination of the
returned page are not modelled; the result carries the matching rows. -/
def getMyAppointments (userId : Option Nat) (roleId : Nat)
    (db : AppointmentsDb) : ControllerResult × List AppointmentRow :=
  match userId with
  | none => (⟨401, false⟩, [])
  | some uid =>
    if roleId = 2 then
      (⟨200, true⟩, db.filter fun a => a.psychologist_id == some uid)
    else if roleId = 3 then
      (⟨200, true⟩, db.filter fun a => a.student_id == uid)
    else (⟨403, false⟩, [])

end AppointmentController

/-! ## Token service and auth middleware -/

/-- The JWT payload the middleware signs: { userId, email, roleId }. -/
structure JwtPayload where
  userId : Nat
  email : String
  roleId : Nat
deriving DecidableEq, Repr

/-- A signed token, embedding the jsonwebtoken library: the signature is
modelled by carrying the signing secret, and sign stamps iat and
exp = iat + expiresIn (seconds). -/
structure SignedJwt where
  payload : JwtPayload
  iat : Nat
  exp : Nat
  sigSecret : String
deriving DecidableEq, Repr

inductive JwtError where
  | invalidSignature
  | expired
deriving DecidableEq, Repr

/-- jwt.sign(payload, secret, { expiresIn }). -/
def jwtSign (p : JwtPayload) (secret : String) (expiresInSec now : Nat) : SignedJwt :=
  ⟨p, now, now + expiresInSec, secret⟩

/-- jwt.verify(token, secret): rejects a signature made with a different
secret, then rejects the token when the clock has reached exp
(jsonwebtoken fails exactly when clockTimestamp is at least exp). -/
def jwtVerify (t : SignedJwt) (secret : String) (now : Nat) :
    Except JwtError JwtPayload :=
  if t.sigSecret ≠ secret then .error .invalidSignature
  else if t.exp ≤ now then .error .expired
  else .ok t.payload

/-- config.jwt.expiresIn = "24h" for the access token. -/
def accessTtlSec : Nat := 24 * 60 * 60

/-- config.jwt.refreshExpiresIn = "7d" for the refresh token. -/
def refreshTtlSec : Nat := 7 * 24 * 60 * 60

/-- generateTokens: one payload, two signatures of it with the same
secret, the access token on the 24h TTL and the refresh token on the
7d TTL. -/
def generateTokens (userId : Nat) (email : String) (roleId : Nat)
    (secret : String) (now : Nat) : SignedJwt × SignedJwt :=
  let payload : JwtPayload := ⟨userId, email, roleId⟩
  (jwtSign payload secret accessTtlSec now,
   jwtSign payload secret refreshTtlSec now)

/-- verifyToken: returns the decoded payload, or null on any
verification error (expiry and bad signature are not distinguished by
the caller-visible result). -/
def verifyToken (t : SignedJwt) (secret : String) (now : Nat) :
    Option JwtPayload :=
  match jwtVerify t secret now with
  | .ok p => some p
  | .error _ => none

/-- One row of the users table. -/
structure UserRow where
  id : Nat
  email : String
  password_hash : String
  first_name : String
  last_name : String
  phone : Option String := none
  avatar_url : Option String := none
  role_id : Nat
  is_active : Bool
  is_verified : Bool
  email_verified_at : Option Nat := none
  created_at : Nat
  updated_at : Nat
  last_login : Option Nat := none
deriving DecidableEq, Repr

abbrev UsersDb := List UserRow

namespace UserModel

def findById (users : UsersDb) (id : Nat) : Option UserRow :=
  users.find? fun u => u.id == id

/-- UserModel.emailExists(email, excludeId): COUNT of users with that
email, excluding the given id. -/
def emailExists (users : UsersDb) (email : String) (excludeId : Nat) : Bool :=
  (users.countP fun u => u.email == email && u.id != excludeId) > 0

end UserModel

/-- The verdict of an express middleware: pass the request on, or halt
it with an HTTP status. -/
inductive GateResult where
  | next
  | halt (status : Nat)
deriving DecidableEq, Repr

/-- How authenticateToken leaves the request: denied with a status, or
carrying req.userId and req.roleId. -/
inductive AuthOutcome where
  | denied (status : Nat)
  | authed (userId roleId : Nat)
deriving DecidableEq, Repr

/-- authenticateToken: 401 with no bearer token; a failing jwt.verify is
caught and answered 403 (the catch branch, message "Token inválido o
expirado"); a decoded token whose user is absent or inactive gets 401;
otherwise the request proceeds with the user's id and role. -/
def authenticateToken (token : Option SignedJwt) (secret : String)
    (now : Nat) (users : UsersDb) : AuthOutcome :=
  match token with
  | none => .denied 401
  | some t =>
    match jwtVerify t secret now with
    | .error _ => .denied 403
    | .ok p =>
      match UserModel.findById users p.userId with
      | none => .denied 401
      | some u => if u.is_active then .authed u.id u.role_id else .denied 401

/-- The middleware's role-id-to-name table: 1 TL_MAYOR (coordinator),
2 PSYCHOLOGIST (clinician), 3 STUDENT (client). -/
def roleMap (roleId : Nat) : Option String :=
  match roleId with
  | 1 => some "TL_MAYOR"
  | 2 => some "PSYCHOLOGIST"
  | 3 => some "STUDENT"
  | _ => none

/-- requireRole(allowedRoles): 401 when unauthenticated; 403 when the
role id maps to no name or the name is not in the allowed list. -/
def requireRole (allowedRoles : List String) (user : Option UserRow) : GateResult :=
  match user with
  | none => .halt 401
  | some u =>
    match roleMap u.role_id with
    | some rn => if allowedRoles.contains rn then .next else .halt 403
    | none => .halt 403

/-- requireOwnershipOrRole(allowedRoles): pass when the role name is in
the allowed list; pass when the role is TL_MAYOR; pass when the caller's
id equals the resource's user id (the route parameter); otherwise 403. -/
def requireOwnershipOrRole (allowedRoles : List String) (user : Option UserRow)
    (resourceUserId : Nat) : GateResult :=
  match user with
  | none => .halt 401
  | some u =>
    let rn := roleMap u.role_id
    if (match rn with
        | some r => allowedRoles.contains r
        | none => false) then .next
    else if rn = some "TL_MAYOR" then .next
    else if u.id = resourceUserId then .next
    else .halt 403

/-! ## AuthController.updateProfile -/

/-- The body of PUT /auth/profile as a partial user update; none means
the key is absent from the body.  There is no id field: both
updateProfile and UserModel.update drop the id key before building the
SET clause. -/
structure UserPatch where
  email : Option String := none
  password_hash : Option String := none
  first_name : Option String := none
  last_name : Option String := none
  phone : Option (Option String) := none
  avatar_url : Option (Option String) := none
  role_id : Option Nat := none
  is_active : Option Bool := none
  is_verified : Option Bool := none
  email_verified_at : Option (Option Nat) := none
  created_at : Option Nat := none
  last_login : Option (Option Nat) := none
deriving DecidableEq, Repr

def applyUserPatch (p : UserPatch) (now : Nat) (u : UserRow) : UserRow :=
  { u with
    email := p.email.getD u.email
    password_hash := p.password_hash.getD u.password_hash
    first_name := p.first_name.getD u.first_name
    last_name := p.last_name.getD u.last_name
    phone := p.phone.getD u.phone
    avatar_url := p.avatar_url.getD u.avatar_url
    role_id := p.role_id.getD u.role_id
    is_active := p.is_active.getD u.is_active
    is_verified := p.is_verified.getD u.is_verified
    email_verified_at := p.email_verified_at.getD u.email_verified_at
    created_at := p.created_at.getD u.created_at
    updated_at := now
    last_login := p.last_login.getD u.last_login }

/-- UserModel.update: raw SET of the supplied fields plus updated_at,
WHERE id = ?, then findById. -/
def userUpdate (users : UsersDb) (id : Nat) (p : UserPatch) (now : Nat) :
    Option UserRow × UsersDb :=
  let users2 := users.map fun u => if u.id = id then applyUserPatch p now u else u
  (UserModel.findById users2 id, users2)

/-- The field deletions at the top of AuthController.updateProfile:
delete updateData.password_hash / role_id / id / created_at. -/
def stripSensitive (p : UserPatch) : UserPatch :=
  { p with password_hash := none, role_id := none, created_at := none }

/-- AuthController.updateProfile: 401 without an identity; strips the
sensitive fields; when a (truthy) email is supplied and already belongs
to another user, 409 with no write; otherwise the raw UserModel.update
of the remaining fields; 404 when the user row is missing. -/
def updateProfile (userId : Option Nat) (body : UserPatch) (users : UsersDb)
    (now : Nat) : ControllerResult × UsersDb :=
  match userId with
  | none => (⟨401, false⟩, users)
  | some uid =>
    let data := stripSensitive body
    let emailTaken : Bool :=
      match data.email with
      | some e => if e ≠ "" then UserModel.emailExists users e uid else false
      | none => false
    if emailTaken then (⟨409, false⟩, users)
    else
      match userUpdate users uid data now with
      | (none, users2) => (⟨404, false⟩, users2)
      | (some _, users2) => (⟨200, true⟩, users2)

/-! ## Concrete fixtures used to instantiate the theorems -/

/-- Fixture: an appointment in the terminal Completed status. -/
def completedFixture : AppointmentRow :=
  { id := 1, student_id := 5, psychologist_id := some 9,
    scheduled_date := "2025-03-01", scheduled_time := "09:00",
    status_id := completedId }

/-- Fixture: an appointment in the terminal Cancelled status. -/
def cancelledFixture : AppointmentRow :=
  { completedFixture with status_id := cancelledId }

/-- Fixture: a Pending appointment with no clinician. -/
def pendingFixture : AppointmentRow :=
  { id := 1, student_id := 5, psychologist_id := none,
    scheduled_date := "2025-03-01", scheduled_time := "09:00",
    status_id := pendingId }

/-- Fixture: an active student user. -/
def studentFixture : UserRow :=
  { id := 7, email := "student@example.com", password_hash := "h1",
    first_name := "Stu", last_name := "Dent", role_id := 3,
    is_active := true, is_verified := true, created_at := 10, updated_at := 10 }

/-- Fixture: an active coordinator (TL_MAYOR) user. -/
def coordinatorFixture : UserRow :=
  { studentFixture with id := 1, email := "tl@example.com", role_id := 1 }

/-- Fixture: a create-appointment body naming no psychologist. -/
def createBodyFixture : AppointmentController.CreateBody :=
  { student_id := 0, psychologist_id := none,
    scheduled_date := "2025-03-01", scheduled_time := "09:00",
    reason_for_visit := some "first visit" }

/-- Projection of the fields AuthController.updateProfile must never
change: id, password_hash, role_id, created_at. -/
def sensitiveProj (u : UserRow) : Nat × String × Nat × Nat :=
  (u.id, u.password_hash, u.role_id, u.created_at)

/-! ## Helper lemmas -/

theorem cancelledStatusIds_eq : cancelledStatusIds = [cancelledId] := rfl

theorem le_foldr_max (l : List Nat) (x : Nat) (hx : x ∈ l) : x ≤ l.foldr max 0 := by
  induction l with
  | nil => cases hx
  | cons b l ih =>
    rcases List.mem_cons.mp hx with h | h
    · subst h; exact le_max_left _ _
    · exact le_trans (ih h) (le_max_right _ _)

theorem id_ne_nextId (db : AppointmentsDb) (a : AppointmentRow) (ha : a ∈ db) :
    a.id ≠ nextId db := by
  have h1 : a.id ≤ (db.map (·.id)).foldr max 0 :=
    le_foldr_max _ _ (List.mem_map_of_mem _ ha)
  unfold nextId
  omega

theorem find?_append_single (db : List AppointmentRow) (row : AppointmentRow) (j : Nat)
    (hdb : ∀ a ∈ db, a.id ≠ j) (hrow : row.id = j) :
    (db ++ [row]).find? (fun a => a.id == j) = some row := by
  induction db with
  | nil => simp [List.find?, hrow]
  | cons a l ih =>
    have hne : ¬((a.id == j) = true) := by
      simp [hdb a (List.mem_cons_self a l)]
    rw [List.cons_append,
      List.find?_cons_of_neg (p := fun x : AppointmentRow => x.id == j) _ hne]
    exact ih fun b hb => hdb b (List.mem_cons_of_mem a hb)

theorem find?_updateWhere (db : AppointmentsDb) (id : Nat)
    (g : AppointmentRow → AppointmentRow) (hg : ∀ a, (g a).id = a.id) :
    (updateWhere db id g).find? (fun a => a.id == id)
      = (db.find? (fun a => a.id == id)).map fun a => if a.id = id then g a else a := by
  induction db with
  | nil => rfl
  | cons a l ih =>
    unfold updateWhere at *
    by_cases h : a.id = id
    · have h1 : ((g a).id == id) = true := by simp [hg, h]
      have h2 : ((a.id == id) : Bool) = true := by simp [h]
      rw [List.map_cons, if_pos h,
        List.find?_cons_of_pos (p := fun x : AppointmentRow => x.id == id) _ h1,
        List.find?_cons_of_pos (p := fun x : AppointmentRow => x.id == id) _ h2]
      simp [h]
    · have h2 : ¬((a.id == id) = true) := by simp [h]
      rw [List.map_cons, if_neg h,
        List.find?_cons_of_neg (p := fun x : AppointmentRow => x.id == id) _ h2,
        List.find?_cons_of_neg (p := fun x : AppointmentRow => x.id == id) _ h2]
      exact ih

theorem findById_insert (db : AppointmentsDb) (row : AppointmentRow)
    (hrow : row.id = nextId db) :
    AppointmentModel.findById (db ++ [row]) (nextId db) = some row :=
  find?_append_single db row (nextId db) (fun a ha => id_ne_nextId db a ha) hrow

theorem create_eq (db : AppointmentsDb) (d : AppointmentModel.CreateData) (sid : Nat)
    (hsid : statusIdByName (if d.psychologist_id.isSome then "ASSIGNED" else "PENDING")
      = some sid) :
    AppointmentModel.create db d
      = some (AppointmentModel.createRowOf db d sid,
              db ++ [AppointmentModel.createRowOf db d sid]) := by
  unfold AppointmentModel.create
  rw [hsid]
  have hfind := findById_insert db (AppointmentModel.createRowOf db d sid) rfl
  simp only [hfind]

theorem findById_updateWhere (db : AppointmentsDb) (id : Nat)
    (g : AppointmentRow → AppointmentRow) (hg : ∀ a, (g a).id = a.id) :
    AppointmentModel.findById (updateWhere db id g) id
      = (AppointmentModel.findById db id).map fun a => if a.id = id then g a else a :=
  find?_updateWhere db id g hg

theorem findById_id_eq (db : AppointmentsDb) (id : Nat) (a : AppointmentRow)
    (ha : AppointmentModel.findById db id = some a) : a.id = id := by
  have ha2 : db.find? (fun x => x.id == id) = some a := ha
  have h := List.find?_some ha2
  simpa using h

theorem findById_updateWhere_found (db : AppointmentsDb) (id : Nat)
    (g : AppointmentRow → AppointmentRow) (hg : ∀ x, (g x).id = x.id)
    (a : AppointmentRow) (ha : AppointmentModel.findById db id = some a) :
    AppointmentModel.findById (updateWhere db id g) id = some (g a) := by
  have h := findById_updateWhere db id g hg
  rw [ha] at h
  rw [h]
  show some (if a.id = id then g a else a) = some (g a)
  rw [if_pos (findById_id_eq db id a ha)]

theorem cancel_eq (db : AppointmentsDb) (id : Nat) (reason : Option String)
    (now : Nat) (a : AppointmentRow)
    (ha : AppointmentModel.findById db id = some a) :
    AppointmentModel.cancel db id reason now
      = (some (AppointmentModel.cancelSet cancelledId reason now a),
         updateWhere db id (AppointmentModel.cancelSet cancelledId reason now)) := by
  have h0 : AppointmentModel.cancel db id reason now
      = (AppointmentModel.findById
          (updateWhere db id (AppointmentModel.cancelSet cancelledId reason now)) id,
         updateWhere db id (AppointmentModel.cancelSet cancelledId reason now)) := rfl
  rw [h0, findById_updateWhere_found db id
    (AppointmentModel.cancelSet cancelledId reason now) (fun _ => rfl) a ha]

theorem complete_eq (db : AppointmentsDb) (id : Nat) (notes : Option String)
    (now : Nat) (a : AppointmentRow)
    (ha : AppointmentModel.findById db id = some a) :
    AppointmentModel.complete db id notes now
      = (some (AppointmentModel.completeSet completedId notes now a),
         updateWhere db id (AppointmentModel.completeSet completedId notes now)) := by
  have h0 : AppointmentModel.complete db id notes now
      = (AppointmentModel.findById
          (updateWhere db id (AppointmentModel.completeSet completedId notes now)) id,
         updateWhere db id (AppointmentModel.completeSet completedId notes now)) := rfl
  rw [h0, findById_updateWhere_found db id
    (AppointmentModel.completeSet completedId notes now) (fun _ => rfl) a ha]

theorem cancelAppointment_found (db : AppointmentsDb) (id : Nat)
    (reason : Option String) (now : Nat) (a : AppointmentRow)
    (ha : AppointmentModel.findById db id = some a) :
    AppointmentController.cancelAppointment id reason now db
      = (⟨200, true⟩,
         updateWhere db id (AppointmentModel.cancelSet cancelledId reason now)) := by
  unfold AppointmentController.cancelAppointment
  rw [cancel_eq db id reason now a ha]

theorem completeAppointment_found (db : AppointmentsDb) (id : Nat)
    (notes : Option String) (now : Nat) (a : AppointmentRow)
    (ha : AppointmentModel.findById db id = some a) :
    AppointmentController.completeAppointment id notes now db
      = (⟨200, true⟩,
         updateWhere db id (AppointmentModel.completeSet completedId notes now)) := by
  unfold AppointmentController.completeAppointment
  rw [complete_eq db id notes now a ha]

theorem availabilityGuardArgs_none (p : AppointmentModel.AppointmentPatch)
    (hb : p.psychologist_id = none) :
    AppointmentController.availabilityGuardArgs p = none := by
  unfold AppointmentController.availabilityGuardArgs
  rw [hb]

theorem updateAppointment_applies_raw (db : AppointmentsDb) (id : Nat)
    (b : AppointmentController.UpdateBody)
    (hguard : AppointmentController.availabilityGuardArgs
      (AppointmentController.applyStatusShim b) = none)
    (a : AppointmentRow) (ha : AppointmentModel.findById db id = some a) :
    AppointmentController.updateAppointment id b db
      = (⟨200, true⟩,
         updateWhere db id
           (AppointmentModel.applyPatch (AppointmentController.applyStatusShim b))) := by
  unfold AppointmentController.updateAppointment
  have h0 : AppointmentModel.update db id (AppointmentController.applyStatusShim b)
      = (AppointmentModel.findById
          (updateWhere db id
            (AppointmentModel.applyPatch (AppointmentController.applyStatusShim b))) id,
         updateWhere db id
           (AppointmentModel.applyPatch (AppointmentController.applyStatusShim b))) := rfl
  dsimp only
  rw [hguard, h0, findById_updateWhere_found db id
    (AppointmentModel.applyPatch (AppointmentController.applyStatusShim b))
    (fun _ => rfl) a ha]

theorem create_pending (db : AppointmentsDb) (d : AppointmentModel.CreateData)
    (hd : d.psychologist_id = none) :
    AppointmentModel.create db d
      = some (AppointmentModel.createRowOf db d pendingId,
              db ++ [AppointmentModel.createRowOf db d pendingId]) :=
  create_eq db d pendingId (by rw [hd]; rfl)

theorem create_assigned (db : AppointmentsDb) (d : AppointmentModel.CreateData)
    (pid : Nat) (hd : d.psychologist_id = some pid) :
    AppointmentModel.create db d
      = some (AppointmentModel.createRowOf db d assignedId,
              db ++ [AppointmentModel.createRowOf db d assignedId]) :=
  create_eq db d assignedId (by rw [hd]; rfl)

theorem jwtVerify_sign_fresh (p : JwtPayload) (secret : String)
    (ttl now d : Nat) (h : d < ttl) :
    jwtVerify (jwtSign p secret ttl now) secret (now + d) = .ok p := by
  unfold jwtVerify jwtSign
  rw [if_neg (by simp), if_neg (by show ¬(now + ttl ≤ now + d); omega)]

theorem jwtVerify_sign_expired (p : JwtPayload) (secret : String)
    (ttl now d : Nat) (h : ttl ≤ d) :
    jwtVerify (jwtSign p secret ttl now) secret (now + d) = .error .expired := by
  unfold jwtVerify jwtSign
  rw [if_neg (by simp), if_pos (by show now + ttl ≤ now + d; omega)]

/-! ## Claim theorems -/

/-- C2: checkAvailability(C, D, T) returns true iff no appointment row
has clinician C, exactly date D and exactly time T with a status other
than Cancelled; Pending, Assigned and Completed rows (indeed every
non-Cancelled status id) block the slot, Cancelled rows never do, and
only exact equality of date and time is consulted — no overlap or
duration reasoning. -/
theorem c2_checkAvailability_exact_slot_conflict (db : AppointmentsDb)
    (pid : Nat) (d t : String) :
    AppointmentModel.checkAvailability db pid d t = true ↔
      ∀ a ∈ db, ¬(a.psychologist_id = some pid ∧ a.scheduled_date = d ∧
                  a.scheduled_time = t ∧ a.status_id ≠ cancelledId) := by
  unfold AppointmentModel.checkAvailability
  rw [beq_iff_eq, List.countP_eq_zero]
  apply forall_congr'
  intro a
  apply imp_congr_right
  intro _
  rw [cancelledStatusIds_eq]
  simp [and_assoc, cancelledId, List.contains]

/-- C1 counterexample: the code enforces no terminal-state rule.
Cancelling the Completed appointment (a terminal state) answers 200
success and overwrites its status to Cancelled, so a transition from a
terminal state both succeeds and changes the status, contradicting the
claim that it must fail and leave the status unchanged. -/
theorem c1_counterexample_cancel_succeeds_from_completed :
    (AppointmentController.cancelAppointment 1 none 100 [completedFixture]).1
        = ⟨200, true⟩ ∧
    ((AppointmentController.cancelAppointment 1 none 100 [completedFixture]).2.map
        (·.status_id)) = [cancelledId] :=
  ⟨rfl, rfl⟩

/-- C1 (amended): the transition operations are unconditional raw
updates.  For every appointment present in the store — in particular one
whose status is terminal (Completed or Cancelled) — cancel succeeds with
200 and sets the status to Cancelled, and complete succeeds with 200 and
sets the status to Completed; no terminal-state check exists anywhere on
these paths (only a missing appointment id gets 404). -/
theorem c1_amended_no_terminal_guard (db : AppointmentsDb) (id : Nat)
    (reason notes : Option String) (now : Nat) (a : AppointmentRow)
    (ha : AppointmentModel.findById db id = some a)
    (hterm : a.status_id = completedId ∨ a.status_id = cancelledId) :
    ((AppointmentController.cancelAppointment id reason now db).1 = ⟨200, true⟩ ∧
      AppointmentModel.findById
          (AppointmentController.cancelAppointment id reason now db).2 id
        = some (AppointmentModel.cancelSet cancelledId reason now a) ∧
      (AppointmentModel.cancelSet cancelledId reason now a).status_id = cancelledId) ∧
    ((AppointmentController.completeAppointment id notes now db).1 = ⟨200, true⟩ ∧
      AppointmentModel.findById
          (AppointmentController.completeAppointment id notes now db).2 id
        = some (AppointmentModel.completeSet completedId notes now a) ∧
      (AppointmentModel.completeSet completedId notes now a).status_id = completedId) := by
  refine ⟨⟨?_, ?_, rfl⟩, ?_, ?_, rfl⟩
  · rw [cancelAppointment_found db id reason now a ha]
  · rw [cancelAppointment_found db id reason now a ha]
    exact findById_updateWhere_found db id
      (AppointmentModel.cancelSet cancelledId reason now) (fun _ => rfl) a ha
  · rw [completeAppointment_found db id notes now a ha]
  · rw [completeAppointment_found db id notes now a ha]
    exact findById_updateWhere_found db id
      (AppointmentModel.completeSet completedId notes now) (fun _ => rfl) a ha

/-- Witness for C1 (amended) at the Completed fixture. -/
theorem c1_amended_no_terminal_guard_witness :
    AppointmentModel.findById [completedFixture] 1 = some completedFixture ∧
    completedFixture.status_id = completedId ∧
    (AppointmentController.cancelAppointment 1 (some "w") 50 [completedFixture]).1
      = ⟨200, true⟩ :=
  ⟨rfl, rfl,
   (c1_amended_no_terminal_guard [completedFixture] 1 (some "w") none 50
      completedFixture rfl (Or.inl rfl)).1.1⟩

/-- C4 counterexample: completing the Pending appointment (which has no
clinician) answers 200 success and sets its status to Completed, so the
complete operation does not fail from Pending, contradicting the claim
that it always fails there. -/
theorem c4_counterexample_complete_succeeds_from_pending :
    (AppointmentController.completeAppointment 1 (some "n") 100 [pendingFixture]).1
        = ⟨200, true⟩ ∧
    ((AppointmentController.completeAppointment 1 (some "n") 100 [pendingFixture]).2.map
        (·.status_id)) = [completedId] :=
  ⟨rfl, rfl⟩

/-- C4 (amended): complete is an unconditional raw update — for every
appointment present in the store, in particular a Pending one with no
clinician, the complete operation succeeds with 200 and sets the status
to Completed, recording the completion notes and the completion
timestamp; it fails only with 404 when the appointment id is absent. -/
theorem c4_amended_complete_unconditional (db : AppointmentsDb) (id : Nat)
    (notes : Option String) (now : Nat) (a : AppointmentRow)
    (ha : AppointmentModel.findById db id = some a)
    (hpending : a.status_id = pendingId) :
    (AppointmentController.completeAppointment id notes now db).1 = ⟨200, true⟩ ∧
    AppointmentModel.findById
        (AppointmentController.completeAppointment id notes now db).2 id
      = some (AppointmentModel.completeSet completedId notes now a) ∧
    (AppointmentModel.completeSet completedId notes now a).status_id = completedId ∧
    (AppointmentModel.completeSet completedId notes now a).completed_at = some now := by
  refine ⟨?_, ?_, rfl, rfl⟩
  · rw [completeAppointment_found db id notes now a ha]
  · rw [completeAppointment_found db id notes now a ha]
    exact findById_updateWhere_found db id
      (AppointmentModel.completeSet completedId notes now) (fun _ => rfl) a ha

/-- Witness for C4 (amended) at the Pending fixture. -/
theorem c4_amended_complete_unconditional_witness :
    AppointmentModel.findById [pendingFixture] 1 = some pendingFixture ∧
    pendingFixture.status_id = pendingId ∧
    (AppointmentController.completeAppointment 1 (some "done") 60 [pendingFixture]).1
      = ⟨200, true⟩ :=
  ⟨rfl, rfl,
   (c4_amended_complete_unconditional [pendingFixture] 1 (some "done") 60
      pendingFixture rfl rfl).1⟩

/-- C5 counterexample: a raw field patch bypasses the state machine.
Updating the Cancelled appointment (a terminal state) with the body
status = "PENDING" — routed through the compatibility shim — answers
200 success and overwrites the status to Pending, an illegal transition
out of a terminal state, contradicting the claim that no raw patch can
perform an illegal transition. -/
theorem c5_counterexample_patch_escapes_terminal_state :
    (AppointmentController.updateAppointment 1
        { patch := {}, status := some "PENDING" } [cancelledFixture]).1
      = ⟨200, true⟩ ∧
    ((AppointmentController.updateAppointment 1
        { patch := {}, status := some "PENDING" } [cancelledFixture]).2.map
        (·.status_id)) = [pendingId] :=
  ⟨rfl, rfl⟩

/-- C5 (amended): the generic field-patch path performs a raw overwrite
with no transition-legality check.  The shim maps a symbolic status name
through {PENDING 1, ASSIGNED 2, COMPLETED 3, CANCELLED 4}, and for every
stored appointment, whatever its current status, a body carrying only
that status name updates the row to the mapped status id and answers
200; the only guards on the path are the availability 409 check (which
runs only when psychologist_id, scheduled_date and scheduled_time are
all supplied) and 404 for a missing appointment id. -/
theorem c5_amended_patch_is_raw_overwrite (db : AppointmentsDb) (id : Nat)
    (s : String) (sid : Nat) (a : AppointmentRow)
    (ha : AppointmentModel.findById db id = some a)
    (hmap : AppointmentController.statusNameMap
      (AppointmentController.toUpperCase s) = some sid) :
    AppointmentController.updateAppointment id { patch := {}, status := some s } db
      = (⟨200, true⟩, updateWhere db id (fun x => { x with status_id := sid })) ∧
    AppointmentModel.findById
        (AppointmentController.updateAppointment id
          { patch := {}, status := some s } db).2 id
      = some { a with status_id := sid } := by
  have hshim : AppointmentController.applyStatusShim { patch := {}, status := some s }
      = { status_id := some sid } := by
    unfold AppointmentController.applyStatusShim
    simp [hmap]
  have hone := updateAppointment_applies_raw db id
    { patch := {}, status := some s } (by rw [hshim]; rfl) a ha
  rw [hshim] at hone
  refine ⟨hone, ?_⟩
  rw [hone]
  exact findById_updateWhere_found db id
    (AppointmentModel.applyPatch { status_id := some sid }) (fun _ => rfl) a ha

/-- C3: for every create request: with no psychologist in the body the
created appointment is stored with status Pending (id 1); with a
psychologist whose slot passes checkAvailability the appointment is
stored with status Assigned (id 2); and when the conflict check fails
the request is rejected with 409 and the table is unchanged (nothing is
inserted). -/
theorem c3_create_pending_assigned_conflict (uid roleId : Nat)
    (body : AppointmentController.CreateBody) (db : AppointmentsDb) :
    (body.psychologist_id = none →
      AppointmentController.createAppointment (some uid) roleId body db
        = (⟨201, true⟩,
           db ++ [AppointmentModel.createRowOf db
             (AppointmentController.requestData uid roleId body) pendingId])) ∧
    (∀ pid, body.psychologist_id = some pid →
      (AppointmentModel.checkAvailability db pid
          body.scheduled_date body.scheduled_time = true →
        AppointmentController.createAppointment (some uid) roleId body db
          = (⟨201, true⟩,
             db ++ [AppointmentModel.createRowOf db
               (AppointmentController.requestData uid roleId body) assignedId])) ∧
      (AppointmentModel.checkAvailability db pid
          body.scheduled_date body.scheduled_time = false →
        AppointmentController.createAppointment (some uid) roleId body db
          = (⟨409, false⟩, db))) := by
  refine ⟨?_, fun pid hpid => ⟨?_, ?_⟩⟩
  · intro h
    unfold AppointmentController.createAppointment
    dsimp only
    rw [h, create_pending db (AppointmentController.requestData uid roleId body) h]
  · intro hfree
    unfold AppointmentController.createAppointment
    dsimp only
    rw [hpid]
    dsimp only
    rw [if_pos hfree,
      create_assigned db (AppointmentController.requestData uid roleId body) pid hpid]
  · intro htaken
    unfold AppointmentController.createAppointment
    dsimp only
    rw [hpid]
    dsimp only
    rw [if_neg (by rw [htaken]; exact Bool.false_ne_true)]

/-- Witness for C3 at the no-psychologist body on the empty table. -/
theorem c3_create_pending_assigned_conflict_witness :
    createBodyFixture.psychologist_id = none ∧
    AppointmentController.createAppointment (some 7) 3 createBodyFixture []
      = (⟨201, true⟩,
         [AppointmentModel.createRowOf []
           (AppointmentController.requestData 7 3 createBodyFixture) pendingId]) :=
  ⟨rfl, (c3_create_pending_assigned_conflict 7 3 createBodyFixture []).1 rfl⟩

/-- Witness for C5 (amended): status "completed" on a Pending
appointment is rewritten raw to status id 3. -/
theorem c5_amended_patch_is_raw_overwrite_witness :
    AppointmentModel.findById [pendingFixture] 1 = some pendingFixture ∧
    AppointmentController.statusNameMap
        (AppointmentController.toUpperCase "completed") = some 3 ∧
    AppointmentModel.findById
        (AppointmentController.updateAppointment 1
          { patch := {}, status := some "completed" } [pendingFixture]).2 1
      = some { pendingFixture with status_id := 3 } :=
  ⟨rfl, rfl,
   (c5_amended_patch_is_raw_overwrite [pendingFixture] 1 "completed" 3
      pendingFixture rfl rfl).2⟩

/-- C6 counterexample: an expired (or otherwise invalid) bearer token is
answered 403, not 401 — the authenticateToken catch branch replies 403
for every jwt.verify failure, so the unauthenticated failure kind is not
reported as 401 and is not distinguishable from the forbidden kind. -/
theorem c6_counterexample_expired_token_gets_403 :
    authenticateToken
        (some (jwtSign ⟨7, "student@example.com", 3⟩ "secret" accessTtlSec 0))
        "secret" accessTtlSec [studentFixture]
      = .denied 403 ∧ (403 : Nat) ≠ 401 :=
  ⟨rfl, by decide⟩

/-- C6 (amended): authenticateToken answers 401 only for a missing
token and for a decoded token whose user is absent or inactive; every
jwt.verify failure (bad signature or expiry) is caught and answered 403
— the same status code the role/ownership gates use for forbidden — and
a valid token of an active user resolves to that user's id and role. -/
theorem c6_amended_auth_status_codes (token : Option SignedJwt)
    (secret : String) (now : Nat) (users : UsersDb) :
    (token = none → authenticateToken token secret now users = .denied 401) ∧
    (∀ t, token = some t → ∀ e, jwtVerify t secret now = .error e →
      authenticateToken token secret now users = .denied 403) ∧
    (∀ t p, token = some t → jwtVerify t secret now = .ok p →
      (UserModel.findById users p.userId = none →
        authenticateToken token secret now users = .denied 401) ∧
      (∀ u, UserModel.findById users p.userId = some u →
        (u.is_active = false →
          authenticateToken token secret now users = .denied 401) ∧
        (u.is_active = true →
          authenticateToken token secret now users = .authed u.id u.role_id))) := by
  refine ⟨fun h => by rw [h]; rfl, fun t ht e he => ?_, fun t p ht hp => ?_⟩
  · subst ht
    simp only [authenticateToken, he]
  · subst ht
    refine ⟨fun hu => ?_, fun u hu => ⟨fun hact => ?_, fun hact => ?_⟩⟩
    · simp only [authenticateToken, hp, hu]
    · simp only [authenticateToken, hp, hu, hact, Bool.false_eq_true, if_false]
    · simp only [authenticateToken, hp, hu, hact, if_true]

/-- Witness for C6 (amended): the expired-token branch at a concrete
token, and the missing-token branch. -/
theorem c6_amended_auth_status_codes_witness :
    jwtVerify (jwtSign ⟨7, "e", 3⟩ "s" accessTtlSec 0) "s" accessTtlSec
      = .error .expired ∧
    authenticateToken (some (jwtSign ⟨7, "e", 3⟩ "s" accessTtlSec 0)) "s"
        accessTtlSec [] = .denied 403 ∧
    authenticateToken none "s" accessTtlSec [] = .denied 401 :=
  ⟨rfl,
   (c6_amended_auth_status_codes (some (jwtSign ⟨7, "e", 3⟩ "s" accessTtlSec 0))
      "s" accessTtlSec []).2.1 _ rfl .expired rfl,
   (c6_amended_auth_status_codes none "s" accessTtlSec []).1 rfl⟩

/-- C7: the OwnerOrRoleIn decision (requireOwnershipOrRole): a
Coordinator (TL_MAYOR, role id 1) always passes, whatever the allowed
list; a caller whose role name is in the allowed list passes; the owner
of the resource (caller id equal to the route's resource user id)
passes; and a Client (STUDENT, role id 3) who neither owns the resource
nor has STUDENT in the allowed list is denied 403 — in particular with
the allowed list {PSYCHOLOGIST} a non-owning Client is denied while a
Coordinator passes unconditionally. -/
theorem c7_ownership_or_role_policy (roles : List String) (u : UserRow)
    (rid : Nat) :
    (u.role_id = 1 → requireOwnershipOrRole roles (some u) rid = .next) ∧
    (∀ rn, roleMap u.role_id = some rn → rn ∈ roles →
      requireOwnershipOrRole roles (some u) rid = .next) ∧
    (u.id = rid → requireOwnershipOrRole roles (some u) rid = .next) ∧
    (u.role_id = 3 → u.id ≠ rid → "STUDENT" ∉ roles →
      requireOwnershipOrRole roles (some u) rid = .halt 403) := by
  refine ⟨fun h1 => ?_, fun rn hrn hmem => ?_, fun hown => ?_,
    fun h3 hnotown hnotmem => ?_⟩
  · unfold requireOwnershipOrRole
    dsimp only
    rw [h1]
    by_cases hc : roles.contains "TL_MAYOR"
    · simp [roleMap, hc]
    · simp [roleMap, hc]
  · unfold requireOwnershipOrRole
    dsimp only
    rw [hrn]
    simp [List.contains, List.elem_iff, hmem]
  · unfold requireOwnershipOrRole
    dsimp only
    by_cases hc : (match roleMap u.role_id with
      | some r => roles.contains r
      | none => false) = true
    · rw [if_pos hc]
    · rw [if_neg hc]
      by_cases htl : roleMap u.role_id = some "TL_MAYOR"
      · rw [if_pos htl]
      · rw [if_neg htl, if_pos hown]
  · unfold requireOwnershipOrRole
    dsimp only
    rw [h3]
    simp [roleMap, List.contains, List.elem_iff, hnotmem, hnotown]

/-- Witness for C7 with the allowed list {PSYCHOLOGIST}: the coordinator
fixture passes, the student fixture (id 7, resource id 99) is denied. -/
theorem c7_ownership_or_role_policy_witness :
    coordinatorFixture.role_id = 1 ∧
    requireOwnershipOrRole ["PSYCHOLOGIST"] (some coordinatorFixture) 99 = .next ∧
    requireOwnershipOrRole ["PSYCHOLOGIST"] (some studentFixture) 99 = .halt 403 :=
  ⟨rfl,
   (c7_ownership_or_role_policy ["PSYCHOLOGIST"] coordinatorFixture 99).1 rfl,
   (c7_ownership_or_role_policy ["PSYCHOLOGIST"] studentFixture 99).2.2.2
     rfl (by decide) (by decide)⟩

/-- C8 counterexample: a Coordinator (TL_MAYOR, role id 1) calling the
my-appointments read path is denied with 403 — getMyAppointments serves
only roles 2 (PSYCHOLOGIST) and 3 (STUDENT) and answers every other
role, Coordinator included, with a forbidden error, so Coordinator
access to the appointment surface is not unrestricted. -/
theorem c8_counterexample_coordinator_denied_my_appointments :
    coordinatorFixture.role_id = 1 ∧
    AppointmentController.getMyAppointments (some coordinatorFixture.id)
        coordinatorFixture.role_id [] = (⟨403, false⟩, []) :=
  ⟨rfl, rfl⟩

/-- C8 (amended): every route-level guard on the appointment surface
(requirePsychologistOrTL, requireTLMayor, requireStudentOrTL) admits a
Coordinator, but the my-appointments handler itself denies every role
other than 2 (PSYCHOLOGIST) and 3 (STUDENT) with 403, so a Coordinator
is authorized everywhere on the appointment surface except the
my-appointments read path, where it is denied. -/
theorem c8_amended_coordinator_denied_only_my_appointments (u : UserRow)
    (hrole : u.role_id = 1) (db : AppointmentsDb) :
    requireRole ["PSYCHOLOGIST", "TL_MAYOR"] (some u) = .next ∧
    requireRole ["TL_MAYOR"] (some u) = .next ∧
    requireRole ["STUDENT", "TL_MAYOR"] (some u) = .next ∧
    AppointmentController.getMyAppointments (some u.id) u.role_id db
      = (⟨403, false⟩, []) := by
  refine ⟨?_, ?_, ?_, ?_⟩
  · unfold requireRole
    dsimp only
    rw [hrole]
    rfl
  · unfold requireRole
    dsimp only
    rw [hrole]
    rfl
  · unfold requireRole
    dsimp only
    rw [hrole]
    rfl
  · unfold AppointmentController.getMyAppointments
    dsimp only
    rw [hrole]
    rfl

/-- Witness for C8 (amended) at the coordinator fixture. -/
theorem c8_amended_coordinator_denied_only_my_appointments_witness :
    coordinatorFixture.role_id = 1 ∧
    requireRole ["TL_MAYOR"] (some coordinatorFixture) = .next ∧
    AppointmentController.getMyAppointments (some coordinatorFixture.id)
        coordinatorFixture.role_id [pendingFixture] = (⟨403, false⟩, []) :=
  ⟨rfl,
   (c8_amended_coordinator_denied_only_my_appointments coordinatorFixture rfl
      [pendingFixture]).2.1,
   (c8_amended_coordinator_denied_only_my_appointments coordinatorFixture rfl
      [pendingFixture]).2.2.2⟩

/-- C9: the token round trip.  Verifying the access token produced by
generateTokens(actorId, email, role) with the same secret yields back
exactly that actor id and role at any clock strictly before the 24h TTL
has elapsed, and yields the expiry failure — no identity — at any clock
at or past the TTL. -/
theorem c9_token_roundtrip (userId roleId : Nat) (email secret : String)
    (now d : Nat) :
    (d < accessTtlSec →
      verifyToken (generateTokens userId email roleId secret now).1 secret (now + d)
        = some ⟨userId, email, roleId⟩) ∧
    (accessTtlSec ≤ d →
      jwtVerify (generateTokens userId email roleId secret now).1 secret (now + d)
        = .error .expired ∧
      verifyToken (generateTokens userId email roleId secret now).1 secret (now + d)
        = none) := by
  constructor
  · intro h
    have hv := jwtVerify_sign_fresh ⟨userId, email, roleId⟩ secret accessTtlSec now d h
    unfold verifyToken generateTokens
    dsimp only
    rw [hv]
  · intro h
    have hv := jwtVerify_sign_expired ⟨userId, email, roleId⟩ secret accessTtlSec now d h
    refine ⟨hv, ?_⟩
    unfold verifyToken generateTokens
    dsimp only
    rw [hv]

/-- Witness for C9: fresh at offset 0, expired exactly at the TTL. -/
theorem c9_token_roundtrip_witness :
    (0 < accessTtlSec) ∧
    verifyToken (generateTokens 7 "e@x" 3 "s" 100).1 "s" (100 + 0)
      = some ⟨7, "e@x", 3⟩ ∧
    verifyToken (generateTokens 7 "e@x" 3 "s" 100).1 "s" (100 + accessTtlSec)
      = none :=
  ⟨by decide,
   (c9_token_roundtrip 7 3 "e@x" "s" 100 0).1 (by decide),
   ((c9_token_roundtrip 7 3 "e@x" "s" 100 accessTtlSec).2 (le_refl _)).2⟩

/-- C10: the profile-update frame property.  For every caller, body and
user table, updateProfile leaves id, password_hash, role_id and
created_at unchanged on every row — the controller deletes those keys
from the body before the raw UserModel.update, so no body can change a
user's own role, password hash, id or creation time through this path. -/
theorem c10_updateProfile_preserves_sensitive_fields (userId : Option Nat)
    (body : UserPatch) (users : UsersDb) (now : Nat) :
    ((updateProfile userId body users now).2).map sensitiveProj
      = users.map sensitiveProj := by
  unfold updateProfile
  cases userId with
  | none => rfl
  | some uid =>
    dsimp only
    split
    · rfl
    · rcases h : userUpdate users uid (stripSensitive body) now with ⟨r, users2⟩
      have husers2 : users2
          = users.map fun x =>
              if x.id = uid then applyUserPatch (stripSensitive body) now x else x :=
        (congrArg Prod.snd h).symm
      have hfun : ∀ x : UserRow,
          sensitiveProj (if x.id = uid
            then applyUserPatch (stripSensitive body) now x else x)
            = sensitiveProj x := by
        intro x
        by_cases hx : x.id = uid <;>
          simp [hx, sensitiveProj, applyUserPatch, stripSensitive]
      cases r <;> dsimp only <;>
        rw [husers2, List.map_map] <;>
        exact List.map_congr_left fun x _ => hfun x

end SpeakToMe
